import Mathlib

/-!
Verification development for the wardrobe-styling Streamlit app
(`multiple.py`).  The Python source is shallowly embedded: the two
model-calling functions become pure Lean functions parameterised by the
environment (the hosted model's reply, the image-open outcome, the JSON
parser), and the two UI pages become state-passing functions returning a
new session state together with a log of UI effects and outbound model
calls.
-/

namespace Multiple

/-- ASCII whitespace as recognised both by Python's `str.strip()` and by
the regex class `\s` on `str` patterns: space, tab, newline, carriage
return, vertical tab, form feed. -/
def isSpaceChar (c : Char) : Bool :=
  c = ' ' || c = '\t' || c = '\n' || c = '\r' || c = '\x0b' || c = '\x0c'

/-- Python `str.strip()`: remove whitespace from both ends. -/
def pyStrip (s : List Char) : List Char :=
  ((s.dropWhile isSpaceChar).reverse.dropWhile isSpaceChar).reverse

/-- Length of the maximal leading whitespace run (the greedy `\s*`). -/
def countWS (s : List Char) : Nat :=
  (s.takeWhile isSpaceChar).length

/-- Match of the regex tail `\}\s*\]` at the head of `s`: `some k` when
`s` starts with a closing brace, then whitespace, then a closing bracket,
consuming `k` characters in total.  The `\s*` is greedy, and since `]` is
not whitespace the greedy run is the only candidate. -/
def closingAt (s : List Char) : Option Nat :=
  match s with
  | '\x7d' :: rest =>
    let n := countWS rest
    match rest.drop n with
    | ']' :: _ => some (2 + n)
    | _ => none
  | _ => none

/-- Match of `.*\}\s*\]` (DOTALL) at the head of `s`: the greedy `.*`
backtracks from the longest extension, so the result is the match in
which `.*` consumes as many characters as possible. -/
def dotStarClose : List Char → Option Nat
  | [] => none
  | c :: rest =>
    match dotStarClose rest with
    | some n => some (n + 1)
    | none => closingAt (c :: rest)

/-- Match of the full pattern `\[\s*\{.*\}\s*\]` (DOTALL) anchored at the
head of `s`, returning the number of characters consumed.  Between `[`
and `{` the greedy `\s*` has a unique viable extent because `{` is not
whitespace. -/
def matchAt (s : List Char) : Option Nat :=
  match s with
  | '[' :: rest =>
    let n := countWS rest
    match rest.drop n with
    | '\x7b' :: _ =>
      match dotStarClose (rest.drop (n + 1)) with
      | some m => some (1 + n + 1 + m)
      | none => none
    | _ => none
  | _ => none

/-- Python `re.search(r'\[\s*\{.*\}\s*\]', s, re.DOTALL)`: try each start
position from the left and return `group(0)` of the first position where
the pattern matches. -/
def reSearch : List Char → Option (List Char)
  | [] => none
  | c :: rest =>
    match matchAt (c :: rest) with
    | some n => some ((c :: rest).take n)
    | none => reSearch rest

/-- String-level wrapper for the regex search. -/
def reSearchStr (s : String) : Option String :=
  (reSearch s.toList).map (fun cs => String.mk cs)

/-- String-level wrapper for `str.strip()`. -/
def pyStripStr (s : String) : String :=
  String.mk (pyStrip s.toList)

/-- JSON values as produced by Python's `json.loads`: `None`, booleans,
numbers (modelled as integers), strings, lists and dicts (association
lists with the keys in insertion order). -/
inductive JValue where
  | null : JValue
  | bool (b : Bool) : JValue
  | num (n : Int) : JValue
  | str (s : String) : JValue
  | arr (xs : List JValue) : JValue
  | obj (fs : List (String × JValue)) : JValue

/-- Lookup of a key in a Python dict represented as an association list
(`json.loads` keeps the last duplicate, so parsed dicts have unique
keys). -/
def lookupField : List (String × JValue) → String → Option JValue
  | [], _ => none
  | (k, v) :: rest, key => if k = key then some v else lookupField rest key

/-- Python `dict.get(key, default)` on an object's fields. -/
def getD (fs : List (String × JValue)) (key : String) (dflt : JValue) : JValue :=
  match lookupField fs key with
  | some v => v
  | none => dflt

mutual

/-- Python `repr` of a JSON-derived value, as used when such a value is
interpolated inside a list by `str`/f-strings.  Strings are shown inside
single quotes; escaping of quote characters inside strings is not
modelled. -/
def pyRepr : JValue → String
  | .null => "None"
  | .bool true => "True"
  | .bool false => "False"
  | .num n => toString n
  | .str s => "'" ++ s ++ "'"
  | .arr xs => "[" ++ pyReprElems xs ++ "]"
  | .obj fs => "\x7b" ++ pyReprFields fs ++ "\x7d"

/-- Python repr of the comma-separated elements of a list. -/
def pyReprElems : List JValue → String
  | [] => ""
  | [v] => pyRepr v
  | v :: vs => pyRepr v ++ ", " ++ pyReprElems vs

/-- Python repr of the comma-separated entries of a dict. -/
def pyReprFields : List (String × JValue) → String
  | [] => ""
  | [(k, v)] => "'" ++ k ++ "': " ++ pyRepr v
  | (k, v) :: fs => "'" ++ k ++ "': " ++ pyRepr v ++ ", " ++ pyReprFields fs

end

/-- Python `str` of a JSON-derived value (what an f-string interpolates):
a string is taken verbatim, everything else as its `repr`. -/
def pyStr : JValue → String
  | .str s => s
  | v => pyRepr v

/-- Python join over the elements of a list: every element must be
a string, otherwise a `TypeError` is raised. -/
def pyJoinElems (sep : String) : List JValue → Except String String
  | [] => .ok ""
  | [.str s] => .ok s
  | .str s :: rest =>
    match pyJoinElems sep rest with
    | .ok t => .ok (s ++ sep ++ t)
    | .error e => .error e
  | _ => .error "TypeError: sequence item: expected str instance"

/-- Python `sep.join(v)` for a JSON-derived value `v`: joins a list of
strings, the characters of a string, or the keys of a dict; any other
value is not iterable and raises a `TypeError`. -/
def pyJoin (sep : String) : JValue → Except String String
  | .arr xs => pyJoinElems sep xs
  | .str s => .ok (String.intercalate sep (s.toList.map (fun c => String.mk [c])))
  | .obj fs => .ok (String.intercalate sep (fs.map (fun p => p.1)))
  | _ => .error "TypeError: can only join an iterable"

/-- The single hosted model instance constructed at module level:
`genai.GenerativeModel('gemini-1.5-flash')`, identified by its model
name. -/
def model : String := "gemini-1.5-flash"

/-- Payload of one `generate_content` call: either a prompt together
with the opened image (`[prompt, image_data]`) or a bare prompt
string. -/
inductive Payload where
  | textAndImage (prompt : String) : Payload
  | text (prompt : String) : Payload

/-- One outbound call to the hosted model: which model instance it is
directed to and what payload it carries. -/
structure ModelCall where
  modelName : String
  payload : Payload

/-- The analysis prompt of `analyze_image`, verbatim (a triple-quoted
Python string, including its indentation). -/
def analysisPrompt : String :=
  "\n            Analyze the given image and identify each piece of clothing.\n            For each item, provide a description, category, colors, and style.\n            Ensure the output is a valid JSON array of objects with this structure:\n            [\x7b\"description\": \"\", \"category\": \"\", \"colors\": [], \"style\": [], \"gender_type\": \"\", \"suitable_weather\": \"\", \"material\": \"\", \"occasion\": \"\"\x7d]\n            Socks arent undergarments.\n            Only output the JSON array. Do not include any extra text or formatting outside the JSON.\n        "

/-- The JSON object template that the analysis prompt asks the model to
follow: a one-element array whose object has exactly the eight catalog
fields. -/
def jsonTemplate : String :=
  "[\x7b\"description\": \"\", \"category\": \"\", \"colors\": [], \"style\": [], \"gender_type\": \"\", \"suitable_weather\": \"\", \"material\": \"\", \"occasion\": \"\"\x7d]"

/-- The eight catalog field names, in the order the prompt, the catalog
display and the report use them. -/
def catalogFields : List String :=
  ["description", "category", "colors", "style", "gender_type",
   "suitable_weather", "material", "occasion"]

/-- Environment of one `analyze_image` invocation: whether the uploaded
slot holds a truthy file object, the outcome of `Image.open`, and the
hosted model's reply (`response.text`) or the exception the call
raised. -/
structure ImgEnv where
  present : Bool
  openResult : Except String Unit
  reply : Except String String

/-- Python `isinstance(v, list)`, together with the list itself when the
check succeeds. -/
def asList : JValue → Option (List JValue)
  | .arr xs => some xs
  | _ => none

/-- Embedding of `analyze_image`.  `loads` abstracts Python's `json.loads`
(`.error` = `json.JSONDecodeError`).  The result is the returned value
(`none` = Python `None`), the list of `st.error` messages shown, and the
log of outbound model calls. -/
def analyze_image (loads : String → Except String JValue) (env : ImgEnv) :
    Option (List JValue) × List String × List ModelCall :=
  match env.openResult with
  | .error e => (none, ["Error analyzing image: " ++ e], [])
  | .ok _ =>
    let calls := [ModelCall.mk model (Payload.textAndImage analysisPrompt)]
    match env.reply with
    | .error e => (none, ["Error analyzing image: " ++ e], calls)
    | .ok text =>
      let raw := pyStripStr text
      match reSearchStr raw with
      | none =>
        (none, ["Failed to extract JSON from the response. Please check the format."], calls)
      | some cleaned =>
        match loads cleaned with
        | .error e => (none, ["Error parsing JSON from the cleaned response: " ++ e], calls)
        | .ok v =>
          match asList v with
          | some xs => (some xs, [], calls)
          | none => (none, ["The response should be an array of objects."], calls)

/-- The outfit prompt of `generate_outfit_combinations`: an f-string
that interpolates `str(catalog)` of the catalog list. -/
def outfitPrompt (catalog : List JValue) : String :=
  "Given the following clothing catalog, generate at least three distinct outfit combinations. Provide a short description for each outfit.\n\n        Catalog: "
    ++ pyStr (.arr catalog) ++ "\n    "

/-- Embedding of `generate_outfit_combinations`.  `reply` is the hosted
model's reply text or the exception the call raised.  The result is the
returned value (`response.text`, unmodified, or `None`), the `st.error`
messages shown, and the log of outbound model calls. -/
def generate_outfit_combinations (catalog : List JValue)
    (reply : Except String String) :
    Option String × List String × List ModelCall :=
  let calls := [ModelCall.mk model (Payload.text (outfitPrompt catalog))]
  match reply with
  | .ok t => (some t, [], calls)
  | .error e => (none, ["Error generating outfit combinations: " ++ e], calls)

/-- The per-session state (`st.session_state`): the only field the
program ever stores there is `catalog`; `none` models the key being
absent. -/
structure SessionState where
  catalog : Option (List JValue)

/-- The ephemeral UI effects the program can emit through Streamlit.
Input widgets (radio, uploader, camera) are modelled as parameters of
the page functions; `download` offers a named file to the user's
browser. -/
inductive Effect where
  | title (s : String) : Effect
  | header (s : String) : Effect
  | image : Effect
  | subheader (s : String) : Effect
  | markdown (s : String) : Effect
  | expanderLabel (s : String) : Effect
  | error (s : String) : Effect
  | warning (s : String) : Effect
  | success (s : String) : Effect
  | download (fileName : String) (data : String) : Effect

/-- Result of rendering one page: the session state afterwards, the UI
effects emitted in order, the outbound model calls made, and the
uncaught exception that aborted the page, if any. -/
structure StepResult where
  state : SessionState
  effects : List Effect
  calls : List ModelCall
  exn : Option String

/-- Python truthiness of `Optional[list]`: `None` and the empty list are
falsy. -/
def pyTruthy : Option (List JValue) → Bool
  | some c => !c.isEmpty
  | none => false

/-- One catalog item rendered on the dashboard (the expander and its
seven markdown lines): the effects emitted, and the uncaught exception
(`AttributeError` on a non-dict item, `TypeError` from `', '.join`) that
interrupted the rendering, if any. -/
def displayItem (item : JValue) : List Effect × Option String :=
  match item with
  | .obj fs =>
    let base := [Effect.expanderLabel ("Item: " ++ pyStr (getD fs "description" (.str "N/A"))),
                 Effect.markdown ("**Category:** " ++ pyStr (getD fs "category" (.str "N/A")))]
    match pyJoin ", " (getD fs "colors" (.arr [.str "N/A"])) with
    | .error e => (base, some e)
    | .ok colors =>
      let base2 := base ++ [Effect.markdown ("**Colors:** " ++ colors)]
      match pyJoin ", " (getD fs "style" (.arr [.str "N/A"])) with
      | .error e => (base2, some e)
      | .ok style =>
        (base2 ++ [Effect.markdown ("**Style:** " ++ style),
                   Effect.markdown ("**Gender Type:** " ++ pyStr (getD fs "gender_type" (.str "N/A"))),
                   Effect.markdown ("**Suitable Weather:** " ++ pyStr (getD fs "suitable_weather" (.str "N/A"))),
                   Effect.markdown ("**Material:** " ++ pyStr (getD fs "material" (.str "N/A"))),
                   Effect.markdown ("**Occasion:** " ++ pyStr (getD fs "occasion" (.str "N/A"))),
                   Effect.markdown "---"], none)
  | _ => ([], some "AttributeError: object has no attribute get")

/-- The dashboard's catalog display loop over all items, stopping at the
first uncaught exception. -/
def displayCatalog : List JValue → List Effect × Option String
  | [] => ([], none)
  | item :: rest =>
    let d := displayItem item
    match d.2 with
    | some e => (d.1, some e)
    | none =>
      let dr := displayCatalog rest
      (d.1 ++ dr.1, dr.2)

/-- The dashboard's per-image loop (lines 104-112): show each truthy
image, analyze it, extend `all_catalogs` when the result is truthy and
show an error otherwise.  Returns the collected items, the effects and
the model calls. -/
def processImages (loads : String → Except String JValue) :
    List ImgEnv → List JValue × List Effect × List ModelCall
  | [] => ([], [], [])
  | img :: rest =>
    let head :=
      if img.present then
        let r := analyze_image loads img
        let extendErr :=
          if pyTruthy r.1 then []
          else [Effect.error "Could not get analysis, please try again for one of the images."]
        ((if pyTruthy r.1 then r.1.getD [] else []),
         Effect.image :: r.2.1.map Effect.error ++ extendErr,
         r.2.2)
      else ([], [], [])
    let tail := processImages loads rest
    (head.1 ++ tail.1, head.2.1 ++ tail.2.1, head.2.2 ++ tail.2.2)

/-- The Dashboard page.  `images` is the list of uploaded files (empty
when the uploader or camera produced nothing, in which case the
`if uploaded_images:` guard skips the whole block). -/
def dashboard (loads : String → Except String JValue) (images : List ImgEnv)
    (st0 : SessionState) : StepResult :=
  let hdr := [Effect.header "Wardrobe Dashboard"]
  if images.isEmpty then ⟨st0, hdr, [], none⟩
  else
    let pr := processImages loads images
    if pr.1.isEmpty then
      ⟨st0, hdr ++ pr.2.1 ++ [Effect.error "Could not get analysis, please try again for all images."],
       pr.2.2, none⟩
    else
      let st1 : SessionState := ⟨some pr.1⟩
      let dc := displayCatalog pr.1
      match dc.2 with
      | none =>
        ⟨st1, hdr ++ pr.2.1 ++ Effect.subheader "Clothing Catalog:" :: dc.1
              ++ [Effect.success "Image Analysis Complete!"], pr.2.2, none⟩
      | some e =>
        ⟨st1, hdr ++ pr.2.1 ++ Effect.subheader "Clothing Catalog:" :: dc.1, pr.2.2, some e⟩

/-- One catalog item of the downloadable report (lines 151-159). -/
def reportItem (item : JValue) : Except String String :=
  match item with
  | .obj fs =>
    match pyJoin ", " (getD fs "colors" (.arr [.str "N/A"])) with
    | .error e => .error e
    | .ok colors =>
      match pyJoin ", " (getD fs "style" (.arr [.str "N/A"])) with
      | .error e => .error e
      | .ok style =>
        .ok ("Description: " ++ pyStr (getD fs "description" (.str "N/A")) ++ "\n"
          ++ "Category: " ++ pyStr (getD fs "category" (.str "N/A")) ++ "\n"
          ++ "Colors: " ++ colors ++ "\n"
          ++ "Style: " ++ style ++ "\n"
          ++ "Gender Type: " ++ pyStr (getD fs "gender_type" (.str "N/A")) ++ "\n"
          ++ "Suitable Weather: " ++ pyStr (getD fs "suitable_weather" (.str "N/A")) ++ "\n"
          ++ "Material: " ++ pyStr (getD fs "material" (.str "N/A")) ++ "\n"
          ++ "Occasion: " ++ pyStr (getD fs "occasion" (.str "N/A")) ++ "\n"
          ++ String.mk (List.replicate 30 '-') ++ "\n")
  | _ => .error "AttributeError: object has no attribute get"

/-- The human-readable catalog text of the report (`catalog_text`). -/
def reportText : List JValue → Except String String
  | [] => .ok ""
  | item :: rest =>
    match reportItem item with
    | .error e => .error e
    | .ok t =>
      match reportText rest with
      | .error e => .error e
      | .ok ts => .ok (t ++ ts)

/-- The styled HTML link rendered below the outfit suggestions,
verbatim. -/
def htmlButton : String :=
  "\n                        <a href=\"https://ai-fashion-assistant.streamlit.app/\" target=\"_blank\">\n                            <button style=\"background-color:#4CAF50; color:white; padding:10px 20px; border:none; border-radius:5px; cursor:pointer; text-decoration: none;\">\n                                Go to Next Step\n                            </button>\n                         </a>\n                        "

/-- The Outfit Combinations page.  `reply` is the environment of the one
potential `generate_content` call. -/
def outfitPage (st0 : SessionState) (reply : Except String String) : StepResult :=
  let hdr := [Effect.header "Outfit Combinations"]
  match st0.catalog with
  | none =>
    ⟨st0, hdr ++ [Effect.warning "Please upload an image in the dashboard page to generate outfit combinations."],
     [], none⟩
  | some catalog =>
    let g := generate_outfit_combinations catalog reply
    match g.1 with
    | none =>
      ⟨st0, hdr ++ g.2.1.map Effect.error ++ [Effect.error "Could not generate outfit combinations"],
       g.2.2, none⟩
    | some t =>
      if t.isEmpty then
        ⟨st0, hdr ++ g.2.1.map Effect.error ++ [Effect.error "Could not generate outfit combinations"],
         g.2.2, none⟩
      else
        match reportText catalog with
        | .error e =>
          ⟨st0, hdr ++ g.2.1.map Effect.error
                ++ [Effect.subheader "Outfit Suggestions:", Effect.markdown t], g.2.2, some e⟩
        | .ok ctext =>
          let combined := "Clothing Catalog:\n" ++ ctext ++ "\n\nOutfit Combinations:\n" ++ t
          ⟨st0, hdr ++ g.2.1.map Effect.error
                ++ [Effect.subheader "Outfit Suggestions:", Effect.markdown t,
                    Effect.download "wardrobe_report.txt" combined, Effect.markdown htmlButton],
           g.2.2, none⟩

/-- The two pages of the sidebar radio. -/
inductive Page where
  | dashboard : Page
  | outfitCombinations : Page

/-- One run of `main` on the selected page. -/
def mainStep (page : Page) (loads : String → Except String JValue)
    (images : List ImgEnv) (reply : Except String String)
    (st0 : SessionState) : StepResult :=
  let r :=
    match page with
    | Page.dashboard => dashboard loads images st0
    | Page.outfitCombinations => outfitPage st0 reply
  ⟨r.state, Effect.title "Wardrobe Styling App" :: r.effects, r.calls, r.exn⟩

/-- Outcome of the module-level startup code (lines 10-18): either the
app stops with an error before configuring the client, or it runs with
the configured key and the constructed model. -/
inductive InitResult where
  | stopped (errMsg : String) : InitResult
  | running (configuredKey : String) (modelName : String) : InitResult

/-- The module-level startup: read `GOOGLE_API_KEY`; a missing or empty
(falsy) key stops the app with an error, otherwise the client is
configured and the model constructed. -/
def appInit (googleApiKey : Option String) : InitResult :=
  match googleApiKey with
  | none => InitResult.stopped "GEMINI_API_KEY is not set in the environment variables."
  | some k =>
    if k.isEmpty then
      InitResult.stopped "GEMINI_API_KEY is not set in the environment variables."
    else
      InitResult.running k model

/-! ## Claims -/

/-- C1: In `analyze_image`, JSON extraction from the model reply is a
single regex search for `\[\s*\{.*\}\s*\]` (DOTALL) over the stripped
response text; whenever this search finds no match the function shows
the extraction error and returns `None`, and no other parsing mechanism
is attempted (the result does not depend on the JSON parser at all). -/
theorem analyze_image_regex_only (loads : String → Except String JValue)
    (env : ImgEnv) (text : String)
    (hopen : env.openResult = .ok ()) (hreply : env.reply = .ok text)
    (hsearch : reSearchStr (pyStripStr text) = none) :
    analyze_image loads env =
      (none, ["Failed to extract JSON from the response. Please check the format."],
       [ModelCall.mk model (Payload.textAndImage analysisPrompt)]) := by
  obtain ⟨p, o, r⟩ := env
  dsimp only at hopen hreply
  subst hopen; subst hreply
  simp [analyze_image, hsearch]

/-- Witness for C1 at a concrete reply with no bracketed JSON object. -/
theorem analyze_image_regex_only_witness :
    analyze_image (fun _ => .error "never consulted")
        ⟨true, .ok (), .ok "Sorry, I cannot identify clothing here."⟩ =
      (none, ["Failed to extract JSON from the response. Please check the format."],
       [ModelCall.mk model (Payload.textAndImage analysisPrompt)]) :=
  analyze_image_regex_only _ _ "Sorry, I cannot identify clothing here." rfl rfl (by decide)

/-- C2: the function `analyze_image` returns `None` exactly when the image fails to
open, the model call raises, the regex finds no match, the matched
substring fails to parse as JSON, or the parsed value is not a list; in
every other case it returns the parsed list. -/
theorem analyze_image_none_iff (loads : String → Except String JValue) (env : ImgEnv) :
    ((analyze_image loads env).1 = none ↔
      (∃ e, env.openResult = .error e) ∨
      (∃ e, env.reply = .error e) ∨
      (∃ text, env.reply = .ok text ∧ reSearchStr (pyStripStr text) = none) ∨
      (∃ text cleaned e, env.reply = .ok text ∧
        reSearchStr (pyStripStr text) = some cleaned ∧ loads cleaned = .error e) ∨
      (∃ text cleaned v, env.reply = .ok text ∧
        reSearchStr (pyStripStr text) = some cleaned ∧ loads cleaned = .ok v ∧
        asList v = none)) ∧
    (∀ text cleaned xs, env.openResult = .ok () → env.reply = .ok text →
      reSearchStr (pyStripStr text) = some cleaned → loads cleaned = .ok (.arr xs) →
      (analyze_image loads env).1 = some xs) := by
  obtain ⟨p, o, r⟩ := env
  refine ⟨?_, ?_⟩
  · dsimp only
    cases o with
    | error e =>
      exact ⟨fun _ => Or.inl ⟨e, rfl⟩, fun _ => by simp [analyze_image]⟩
    | ok u =>
      cases r with
      | error e =>
        exact ⟨fun _ => Or.inr (Or.inl ⟨e, rfl⟩), fun _ => by simp [analyze_image]⟩
      | ok text =>
        cases hm : reSearchStr (pyStripStr text) with
        | none =>
          exact ⟨fun _ => Or.inr (Or.inr (Or.inl ⟨text, rfl, hm⟩)),
                 fun _ => by simp [analyze_image, hm]⟩
        | some cleaned =>
          cases hl : loads cleaned with
          | error e =>
            exact ⟨fun _ => Or.inr (Or.inr (Or.inr (Or.inl ⟨text, cleaned, e, rfl, hm, hl⟩))),
                   fun _ => by simp [analyze_image, hm, hl]⟩
          | ok v =>
            cases ha : asList v with
            | none =>
              exact ⟨fun _ => Or.inr (Or.inr (Or.inr (Or.inr ⟨text, cleaned, v, rfl, hm, hl, ha⟩))),
                     fun _ => by simp [analyze_image, hm, hl, ha]⟩
            | some xs =>
              refine ⟨fun hnone => ?_, fun hdisj => ?_⟩
              · have hsome : (analyze_image loads ⟨p, Except.ok u, Except.ok text⟩).1 = some xs := by
                  simp [analyze_image, hm, hl, ha]
                rw [hsome] at hnone
                exact Option.noConfusion hnone
              · exfalso
                rcases hdisj with ⟨e, he⟩ | ⟨e, he⟩ | ⟨t, ht, hn⟩ | ⟨t, c, e, ht, hs, he⟩ |
                  ⟨t, c, w, ht, hs, hw, hwa⟩
                · exact Except.noConfusion he
                · exact Except.noConfusion he
                · injection ht with ht'; subst ht'
                  rw [hm] at hn; exact Option.noConfusion hn
                · injection ht with ht'; subst ht'
                  rw [hm] at hs; injection hs with hs'; subst hs'
                  rw [hl] at he; exact Except.noConfusion he
                · injection ht with ht'; subst ht'
                  rw [hm] at hs; injection hs with hs'; subst hs'
                  rw [hl] at hw; injection hw with hw'; subst hw'
                  rw [ha] at hwa; exact Option.noConfusion hwa
  · intro text cleaned xs hopen hreply hsearch hloads
    dsimp only at hopen hreply
    subst hopen; subst hreply
    simp [analyze_image, hsearch, hloads, asList]

/-- Witness for C2: a concrete reply whose extracted substring parses as
a JSON array is returned as that list. -/
theorem analyze_image_none_iff_witness :
    (analyze_image
        (fun s => if s = "[\x7b\"category\": \"hat\"\x7d]"
          then .ok (.arr [.obj [("category", .str "hat")]]) else .error "Expecting value")
        ⟨true, .ok (), .ok "Here you go: [\x7b\"category\": \"hat\"\x7d] thanks"⟩).1 =
      some [.obj [("category", .str "hat")]] :=
  (analyze_image_none_iff _ _).2 "Here you go: [\x7b\"category\": \"hat\"\x7d] thanks"
    "[\x7b\"category\": \"hat\"\x7d]" _ rfl rfl (by decide) (by simp)

/-- C3: whenever the regex-matched substring parses as a JSON array,
`analyze_image` returns that array unchanged, with no structural
condition on its elements. -/
theorem analyze_image_no_invariant (loads : String → Except String JValue)
    (env : ImgEnv) (text cleaned : String) (xs : List JValue)
    (hopen : env.openResult = .ok ()) (hreply : env.reply = .ok text)
    (hsearch : reSearchStr (pyStripStr text) = some cleaned)
    (hloads : loads cleaned = .ok (.arr xs)) :
    (analyze_image loads env).1 = some xs := by
  obtain ⟨p, o, r⟩ := env
  dsimp only at hopen hreply
  subst hopen; subst hreply
  simp [analyze_image, hsearch, hloads, asList]

/-- Witness for C3: the parsed array `[\x7b\x7d, 5, \x7b\x7d]` — whose
elements include a bare number and field-less objects — is returned
unchanged. -/
theorem analyze_image_no_invariant_witness :
    (analyze_image
        (fun s => if s = "[\x7b\x7d, 5, \x7b\x7d]"
          then .ok (.arr [.obj [], .num 5, .obj []]) else .error "Expecting value")
        ⟨true, .ok (), .ok "[\x7b\x7d, 5, \x7b\x7d]"⟩).1 =
      some [.obj [], .num 5, .obj []] :=
  analyze_image_no_invariant _ _ "[\x7b\x7d, 5, \x7b\x7d]" "[\x7b\x7d, 5, \x7b\x7d]" _
    rfl rfl (by decide) (by simp)

/-- Inversion for `asList`. -/
theorem asList_eq_some {v : JValue} {xs : List JValue} (h : asList v = some xs) :
    v = JValue.arr xs := by
  cases v <;> simp_all [asList]

/-- The model calls of one `analyze_image` invocation: none when the
image fails to open, exactly one (to the global model) otherwise. -/
theorem analyze_image_calls (loads : String → Except String JValue) (env : ImgEnv) :
    (analyze_image loads env).2.2 = [] ∨
    (analyze_image loads env).2.2 = [ModelCall.mk model (Payload.textAndImage analysisPrompt)] := by
  obtain ⟨p, o, r⟩ := env
  cases o with
  | error e => exact Or.inl (by simp [analyze_image])
  | ok u =>
    refine Or.inr ?_
    cases r with
    | error e => simp [analyze_image]
    | ok text =>
      cases hm : reSearchStr (pyStripStr text) with
      | none => simp [analyze_image, hm]
      | some cleaned =>
        cases hl : loads cleaned with
        | error e => simp [analyze_image, hm, hl]
        | ok v =>
          cases ha : asList v with
          | none => simp [analyze_image, hm, hl, ha]
          | some xs => simp [analyze_image, hm, hl, ha]

/-- The model calls of one `generate_outfit_combinations` invocation:
always exactly one, to the global model, carrying the outfit prompt. -/
theorem generate_outfit_calls (catalog : List JValue) (reply : Except String String) :
    (generate_outfit_combinations catalog reply).2.2 =
      [ModelCall.mk model (Payload.text (outfitPrompt catalog))] := by
  cases reply <;> simp [generate_outfit_combinations]

/-- C5: each invocation of `analyze_image` and of
`generate_outfit_combinations` performs at most one outbound
`generate_content` call, every call is directed to the single global
model instance, and the outfit prompt contains the interpolated catalog
passed to the function. -/
theorem one_outbound_call_per_invocation (loads : String → Except String JValue)
    (env : ImgEnv) (catalog : List JValue) (reply : Except String String) :
    (analyze_image loads env).2.2.length ≤ 1 ∧
    (∀ c ∈ (analyze_image loads env).2.2, c.modelName = model) ∧
    (generate_outfit_combinations catalog reply).2.2.length = 1 ∧
    (∀ c ∈ (generate_outfit_combinations catalog reply).2.2, c.modelName = model) ∧
    (∃ pre post, outfitPrompt catalog = pre ++ pyStr (.arr catalog) ++ post) := by
  refine ⟨?_, ?_, ?_, ?_, ?_⟩
  · rcases analyze_image_calls loads env with h | h <;> simp [h]
  · rcases analyze_image_calls loads env with h | h <;> simp [h]
  · simp [generate_outfit_calls]
  · simp [generate_outfit_calls]
  · exact ⟨"Given the following clothing catalog, generate at least three distinct outfit combinations. Provide a short description for each outfit.\n\n        Catalog: ",
           "\n    ", rfl⟩

/-- Witness for C5 at a concrete failing image analysis and a concrete
one-item catalog. -/
theorem one_outbound_call_per_invocation_witness :
    (analyze_image (fun _ => .error "Expecting value")
        ⟨true, .ok (), .error "network down"⟩).2.2.length ≤ 1 ∧
    (∃ pre post, outfitPrompt [.str "hat"] = pre ++ pyStr (.arr [.str "hat"]) ++ post) :=
  ⟨(one_outbound_call_per_invocation (fun _ => .error "Expecting value")
      ⟨true, .ok (), .error "network down"⟩ [.str "hat"] (.ok "ok")).1,
   (one_outbound_call_per_invocation (fun _ => .error "Expecting value")
      ⟨true, .ok (), .error "network down"⟩ [.str "hat"] (.ok "ok")).2.2.2.2⟩

/-- C6 counterexample: on a successful call,
`generate_outfit_combinations` returns exactly the raw reply text — the
returned value does not differ from the reply by any cleanup step. -/
theorem outfit_reply_not_postprocessed :
    (generate_outfit_combinations [.obj [("category", .str "hat")]]
        (.ok "Outfit 1: the hat alone.")).1 = some "Outfit 1: the hat alone." := rfl

/-- C6 (amended): the function `analyze_image` post-processes the reply before
returning it — every returned value is obtained by stripping the reply,
extracting the regex match and parsing it as JSON — while
`generate_outfit_combinations` returns the reply text unchanged. -/
theorem model_reply_postprocessing (loads : String → Except String JValue)
    (env : ImgEnv) (catalog : List JValue) (reply : Except String String) :
    (∀ text xs, env.reply = .ok text → (analyze_image loads env).1 = some xs →
      ∃ cleaned, reSearchStr (pyStripStr text) = some cleaned ∧
        loads cleaned = .ok (.arr xs)) ∧
    (∀ t, reply = .ok t → (generate_outfit_combinations catalog reply).1 = some t) := by
  constructor
  · intro text xs hreply hres
    obtain ⟨p, o, r⟩ := env
    dsimp only at hreply
    subst hreply
    cases o with
    | error e => simp [analyze_image] at hres
    | ok u =>
      cases hm : reSearchStr (pyStripStr text) with
      | none => simp [analyze_image, hm] at hres
      | some cleaned =>
        cases hl : loads cleaned with
        | error e => simp [analyze_image, hm, hl] at hres
        | ok v =>
          cases ha : asList v with
          | none => simp [analyze_image, hm, hl, ha] at hres
          | some xs' =>
            have : xs' = xs := by
              have := hres
              simp [analyze_image, hm, hl, ha] at this
              exact this
            subst this
            exact ⟨cleaned, rfl, by rw [hl, asList_eq_some ha]⟩
  · intro t ht
    subst ht
    simp [generate_outfit_combinations]

/-- Witness for the amended C6 at a concrete reply. -/
theorem model_reply_postprocessing_witness :
    (generate_outfit_combinations [] (.ok "Wear the hat.")).1 = some "Wear the hat." :=
  (model_reply_postprocessing (fun _ => .error "Expecting value")
    ⟨true, .ok (), .error "unused"⟩ [] (.ok "Wear the hat.")).2 "Wear the hat." rfl

/-- The collected dashboard catalog is non-empty exactly when some
present image's analysis returned a non-empty list. -/
theorem processImages_nonempty_iff (loads : String → Except String JValue)
    (images : List ImgEnv) :
    (processImages loads images).1 ≠ [] ↔
      ∃ img ∈ images, img.present = true ∧
        ∃ xs, (analyze_image loads img).1 = some xs ∧ xs ≠ [] := by
  induction images with
  | nil => simp [processImages]
  | cons img rest ih =>
    cases hp : img.present with
    | false => simp [processImages, hp, ih]
    | true =>
      cases hr : (analyze_image loads img).1 with
      | none => simp [processImages, hp, hr, pyTruthy, ih]
      | some xs =>
        cases xs with
        | nil => simp [processImages, hp, hr, pyTruthy, ih]
        | cons a l => simp [processImages, hp, hr, pyTruthy, ih]

/-- A non-empty processed catalog forces a non-empty image list. -/
theorem processImages_ne_nil_images (loads : String → Except String JValue)
    (images : List ImgEnv) (h : (processImages loads images).1 ≠ []) :
    images.isEmpty = false := by
  cases images with
  | nil => simp [processImages] at h
  | cons i rest => rfl

/-- On a collected non-empty catalog, the dashboard stores it in the
session state. -/
theorem dashboard_stores_catalog (loads : String → Except String JValue)
    (images : List ImgEnv) (st0 : SessionState)
    (hne : (processImages loads images).1 ≠ []) :
    (dashboard loads images st0).state.catalog = some (processImages loads images).1 := by
  have himgs := processImages_ne_nil_images loads images hne
  have hces : (processImages loads images).1.isEmpty = false := by
    cases hc : (processImages loads images).1 with
    | nil => exact absurd hc hne
    | cons a l => rfl
  simp only [dashboard, himgs, hces, Bool.false_eq_true, if_false]
  cases hd : (displayCatalog (processImages loads images).1).2 with
  | none => simp [hd]
  | some e => simp [hd]

/-- C7: the catalog is held only in per-session memory: a dashboard run
whose analyses collect a non-empty catalog stores it in
`st.session_state.catalog`; the Outfit Combinations page reads the
catalog back from there (building its prompt from it) and never writes
the state; and on either page the session state either keeps its
previous catalog or receives the dashboard's collected items — there is
no other destination for the catalog. -/
theorem catalog_session_only (loads : String → Except String JValue)
    (images : List ImgEnv) (reply : Except String String) (st0 : SessionState) :
    ((processImages loads images).1 ≠ [] →
      (dashboard loads images st0).state.catalog = some (processImages loads images).1) ∧
    (∀ c, st0.catalog = some c →
      (outfitPage st0 reply).state = st0 ∧
      (outfitPage st0 reply).calls = [ModelCall.mk model (Payload.text (outfitPrompt c))]) ∧
    (∀ page, (mainStep page loads images reply st0).state.catalog = st0.catalog ∨
      (mainStep page loads images reply st0).state.catalog =
        some (processImages loads images).1) := by
  refine ⟨dashboard_stores_catalog loads images st0, ?_, ?_⟩
  · intro c hc
    obtain ⟨oc⟩ := st0
    dsimp only at hc
    subst hc
    cases reply with
    | error e => exact ⟨by simp [outfitPage, generate_outfit_combinations],
                       by simp [outfitPage, generate_outfit_combinations]⟩
    | ok t =>
      cases ht : t.isEmpty with
      | true => exact ⟨by simp [outfitPage, generate_outfit_combinations, ht],
                      by simp [outfitPage, generate_outfit_combinations, ht]⟩
      | false =>
        cases hr : reportText c with
        | error e => exact ⟨by simp [outfitPage, generate_outfit_combinations, ht, hr],
                           by simp [outfitPage, generate_outfit_combinations, ht, hr]⟩
        | ok ctext => exact ⟨by simp [outfitPage, generate_outfit_combinations, ht, hr],
                            by simp [outfitPage, generate_outfit_combinations, ht, hr]⟩
  · intro page
    cases page with
    | dashboard =>
      cases himg : images.isEmpty with
      | true => left; simp [mainStep, dashboard, himg]
      | false =>
        cases hces : (processImages loads images).1.isEmpty with
        | true => left; simp [mainStep, dashboard, himg, hces]
        | false =>
          right
          simp only [mainStep, dashboard, himg, hces, Bool.false_eq_true, if_false]
          cases hd : (displayCatalog (processImages loads images).1).2 with
          | none => simp [hd]
          | some e => simp [hd]
    | outfitCombinations =>
      left
      obtain ⟨oc⟩ := st0
      cases oc with
      | none => simp [mainStep, outfitPage]
      | some c =>
        cases reply with
        | error e => simp [mainStep, outfitPage, generate_outfit_combinations]
        | ok t =>
          cases ht : t.isEmpty with
          | true => simp [mainStep, outfitPage, generate_outfit_combinations, ht]
          | false =>
            cases hr : reportText c with
            | error e => simp [mainStep, outfitPage, generate_outfit_combinations, ht, hr]
            | ok ctext => simp [mainStep, outfitPage, generate_outfit_combinations, ht, hr]

/-- Witness for C7: a concrete successful dashboard run stores the
parsed item, and the outfit page reads a stored catalog back. -/
theorem catalog_session_only_witness :
    (dashboard
        (fun s => if s = "[\x7b\"category\": \"hat\"\x7d]"
          then .ok (.arr [.obj [("category", .str "hat")]]) else .error "Expecting value")
        [⟨true, .ok (), .ok "[\x7b\"category\": \"hat\"\x7d]"⟩]
        ⟨none⟩).state.catalog = some [.obj [("category", .str "hat")]] ∧
    (outfitPage ⟨some [.str "hat"]⟩ (.ok "Outfit 1")).state = ⟨some [.str "hat"]⟩ :=
  ⟨(catalog_session_only _ _ (.ok "unused") ⟨none⟩).1 (List.cons_ne_nil _ _),
   ((catalog_session_only (fun _ => .error "Expecting value") [] (.ok "Outfit 1")
      ⟨some [.str "hat"]⟩).2.1 [.str "hat"] rfl).1⟩

/-- C8: the Outfit Combinations page calls
`generate_outfit_combinations` only when a catalog is in the session
state and passes exactly the stored catalog; with no catalog it shows a
warning and performs no model call. -/
theorem outfit_page_requires_catalog (st0 : SessionState) (reply : Except String String) :
    (st0.catalog = none →
      outfitPage st0 reply =
        ⟨st0, [Effect.header "Outfit Combinations",
               Effect.warning "Please upload an image in the dashboard page to generate outfit combinations."],
         [], none⟩) ∧
    (∀ c, st0.catalog = some c →
      (outfitPage st0 reply).calls = [ModelCall.mk model (Payload.text (outfitPrompt c))]) := by
  obtain ⟨oc⟩ := st0
  constructor
  · intro h
    dsimp only at h
    subst h
    simp [outfitPage]
  · intro c h
    dsimp only at h
    subst h
    cases reply with
    | error e => simp [outfitPage, generate_outfit_combinations]
    | ok t =>
      cases ht : t.isEmpty with
      | true => simp [outfitPage, generate_outfit_combinations, ht]
      | false =>
        cases hr : reportText c with
        | error e => simp [outfitPage, generate_outfit_combinations, ht, hr]
        | ok ctext => simp [outfitPage, generate_outfit_combinations, ht, hr]

/-- Witness for C8: no catalog yields the warning and no calls; a stored
catalog is passed to the one call verbatim. -/
theorem outfit_page_requires_catalog_witness :
    (outfitPage ⟨none⟩ (.ok "unused")).calls = [] ∧
    (outfitPage ⟨some [.str "hat"]⟩ (.ok "Outfit 1")).calls =
      [ModelCall.mk model (Payload.text (outfitPrompt [.str "hat"]))] :=
  ⟨by rw [(outfit_page_requires_catalog ⟨none⟩ (.ok "unused")).1 rfl],
   (outfit_page_requires_catalog ⟨some [.str "hat"]⟩ (.ok "Outfit 1")).2 [.str "hat"] rfl⟩

/-- C9: a missing or empty `GOOGLE_API_KEY` stops the app at startup
with an error whose text names `GEMINI_API_KEY`, before the client is
configured or the model constructed; the model is constructed exactly
when a non-empty key is present. -/
theorem missing_key_stops_app (key : Option String) :
    ((key = none ∨ key = some "") →
      appInit key = .stopped "GEMINI_API_KEY is not set in the environment variables." ∧
      ∃ pre post, "GEMINI_API_KEY is not set in the environment variables." =
        pre ++ "GEMINI_API_KEY" ++ post) ∧
    ((∃ k name, appInit key = .running k name) ↔ ∃ s, key = some s ∧ s ≠ "") := by
  constructor
  · rintro (rfl | rfl)
    · exact ⟨rfl, "", " is not set in the environment variables.", by decide⟩
    · exact ⟨rfl, "", " is not set in the environment variables.", by decide⟩
  · cases key with
    | none => simp [appInit]
    | some s =>
      by_cases hse : s = ""
      · subst hse
        have h1 : appInit (some "") =
            .stopped "GEMINI_API_KEY is not set in the environment variables." := rfl
        simp [h1]
      · have hs : s.isEmpty = false := by
          rw [Bool.eq_false_iff]
          intro h
          exact hse ((String.isEmpty_iff s).mp h)
        simp [appInit, hs, hse]

/-- Witness for C9: the app stops on a missing key and runs on a
concrete non-empty key. -/
theorem missing_key_stops_app_witness :
    appInit none = .stopped "GEMINI_API_KEY is not set in the environment variables." ∧
    (∃ k name, appInit (some "AIza-test") = .running k name) :=
  ⟨((missing_key_stops_app none).1 (Or.inl rfl)).1,
   (missing_key_stops_app (some "AIza-test")).2.mpr ⟨"AIza-test", rfl, by decide⟩⟩

/-- C10: the dashboard assigns `st.session_state.catalog` only when at
least one present uploaded image yields a non-empty analysis result; if
every analysis fails or returns an empty list, the previous session
state is left unchanged and an error message is shown. -/
theorem dashboard_assigns_only_on_success (loads : String → Except String JValue)
    (images : List ImgEnv) (st0 : SessionState) :
    ((processImages loads images).1 = [] →
      (dashboard loads images st0).state = st0 ∧
      (images ≠ [] →
        Effect.error "Could not get analysis, please try again for all images."
          ∈ (dashboard loads images st0).effects)) ∧
    ((processImages loads images).1 ≠ [] →
      (dashboard loads images st0).state.catalog = some (processImages loads images).1) ∧
    ((processImages loads images).1 ≠ [] ↔
      ∃ img ∈ images, img.present = true ∧
        ∃ xs, (analyze_image loads img).1 = some xs ∧ xs ≠ []) := by
  refine ⟨?_, dashboard_stores_catalog loads images st0, processImages_nonempty_iff loads images⟩
  intro hval
  cases images with
  | nil => exact ⟨by simp [dashboard], fun h => absurd rfl h⟩
  | cons i rest =>
    have hces : (processImages loads (i :: rest)).1.isEmpty = true := by
      rw [hval]; rfl
    constructor
    · simp [dashboard, hces]
    · intro _
      simp [dashboard, hces]

/-- Witness for C10: with one image whose reply holds no JSON, the
previously stored catalog survives and the dashboard shows the global
error. -/
theorem dashboard_assigns_only_on_success_witness :
    (dashboard (fun _ => .error "Expecting value")
        [⟨true, .ok (), .ok "no json at all"⟩] ⟨some [.str "old"]⟩).state =
      ⟨some [.str "old"]⟩ ∧
    Effect.error "Could not get analysis, please try again for all images."
      ∈ (dashboard (fun _ => .error "Expecting value")
          [⟨true, .ok (), .ok "no json at all"⟩] ⟨some [.str "old"]⟩).effects :=
  ⟨((dashboard_assigns_only_on_success (fun _ => .error "Expecting value")
      [⟨true, .ok (), .ok "no json at all"⟩] ⟨some [.str "old"]⟩).1 rfl).1,
   ((dashboard_assigns_only_on_success (fun _ => .error "Expecting value")
      [⟨true, .ok (), .ok "no json at all"⟩] ⟨some [.str "old"]⟩).1 rfl).2
     (List.cons_ne_nil _ _)⟩

set_option maxRecDepth 8192 in
/-- C4: a catalog record consists of exactly the eight fields of
`catalogFields`: the analysis prompt embeds the JSON template whose
object enumerates exactly these eight keys (with `[]` placeholders for
`colors` and `style`, `""` for the rest); the dashboard display and the
downloadable report read exactly these eight fields from each record —
their output depends on nothing else in the record — and substitute
`N/A` for every absent field. -/
theorem catalog_record_fields :
    (∃ pre post, analysisPrompt = pre ++ jsonTemplate ++ post) ∧
    (jsonTemplate = "[\x7b" ++ String.intercalate ", " (catalogFields.map (fun k =>
      "\"" ++ k ++ "\": " ++ (if k = "colors" || k = "style" then "[]" else "\"\"")))
      ++ "\x7d]") ∧
    (∀ fs1 fs2 : List (String × JValue),
      (∀ k ∈ catalogFields, lookupField fs1 k = lookupField fs2 k) →
      displayItem (.obj fs1) = displayItem (.obj fs2) ∧
      reportItem (.obj fs1) = reportItem (.obj fs2)) ∧
    (∀ fs : List (String × JValue), (∀ k ∈ catalogFields, lookupField fs k = none) →
      displayItem (.obj fs) =
        ([Effect.expanderLabel "Item: N/A",
          Effect.markdown "**Category:** N/A",
          Effect.markdown "**Colors:** N/A",
          Effect.markdown "**Style:** N/A",
          Effect.markdown "**Gender Type:** N/A",
          Effect.markdown "**Suitable Weather:** N/A",
          Effect.markdown "**Material:** N/A",
          Effect.markdown "**Occasion:** N/A",
          Effect.markdown "---"], none) ∧
      reportItem (.obj fs) =
        .ok "Description: N/A\nCategory: N/A\nColors: N/A\nStyle: N/A\nGender Type: N/A\nSuitable Weather: N/A\nMaterial: N/A\nOccasion: N/A\n------------------------------\n") := by
  refine ⟨?_, ?_, ?_, ?_⟩
  · exact ⟨"\n            Analyze the given image and identify each piece of clothing.\n            For each item, provide a description, category, colors, and style.\n            Ensure the output is a valid JSON array of objects with this structure:\n            ",
           "\n            Socks arent undergarments.\n            Only output the JSON array. Do not include any extra text or formatting outside the JSON.\n        ",
           by decide⟩
  · decide
  · intro fs1 fs2 h
    have hg : ∀ k d, k ∈ catalogFields → getD fs1 k d = getD fs2 k d := by
      intro k d hk
      unfold getD
      rw [h k hk]
    constructor
    · simp only [displayItem]
      rw [hg "description" (.str "N/A") (by decide), hg "category" (.str "N/A") (by decide),
          hg "colors" (.arr [.str "N/A"]) (by decide), hg "style" (.arr [.str "N/A"]) (by decide),
          hg "gender_type" (.str "N/A") (by decide),
          hg "suitable_weather" (.str "N/A") (by decide),
          hg "material" (.str "N/A") (by decide), hg "occasion" (.str "N/A") (by decide)]
    · simp only [reportItem]
      rw [hg "description" (.str "N/A") (by decide), hg "category" (.str "N/A") (by decide),
          hg "colors" (.arr [.str "N/A"]) (by decide), hg "style" (.arr [.str "N/A"]) (by decide),
          hg "gender_type" (.str "N/A") (by decide),
          hg "suitable_weather" (.str "N/A") (by decide),
          hg "material" (.str "N/A") (by decide), hg "occasion" (.str "N/A") (by decide)]
  · intro fs h
    have hg : ∀ k d, k ∈ catalogFields → getD fs k d = d := by
      intro k d hk
      unfold getD
      rw [h k hk]
    constructor
    · simp only [displayItem]
      rw [hg "description" (.str "N/A") (by decide), hg "category" (.str "N/A") (by decide),
          hg "colors" (.arr [.str "N/A"]) (by decide), hg "style" (.arr [.str "N/A"]) (by decide),
          hg "gender_type" (.str "N/A") (by decide),
          hg "suitable_weather" (.str "N/A") (by decide),
          hg "material" (.str "N/A") (by decide), hg "occasion" (.str "N/A") (by decide)]
      rfl
    · simp only [reportItem]
      rw [hg "description" (.str "N/A") (by decide), hg "category" (.str "N/A") (by decide),
          hg "colors" (.arr [.str "N/A"]) (by decide), hg "style" (.arr [.str "N/A"]) (by decide),
          hg "gender_type" (.str "N/A") (by decide),
          hg "suitable_weather" (.str "N/A") (by decide),
          hg "material" (.str "N/A") (by decide), hg "occasion" (.str "N/A") (by decide)]
      rfl

/-- Witness for C4: a record field outside the eight does not change the
display, and a record with none of the eight fields renders as all
`N/A`. -/
theorem catalog_record_fields_witness :
    displayItem (.obj [("description", .str "blue coat"), ("zzz", .num 1)]) =
      displayItem (.obj [("description", .str "blue coat")]) ∧
    reportItem (.obj [("other", .num 3)]) =
      .ok "Description: N/A\nCategory: N/A\nColors: N/A\nStyle: N/A\nGender Type: N/A\nSuitable Weather: N/A\nMaterial: N/A\nOccasion: N/A\n------------------------------\n" :=
  ⟨(catalog_record_fields.2.2.1 [("description", .str "blue coat"), ("zzz", .num 1)]
      [("description", .str "blue coat")]
      (by intro k hk; fin_cases hk <;> rfl)).1,
   (catalog_record_fields.2.2.2 [("other", .num 3)]
      (by intro k hk; fin_cases hk <;> rfl)).2⟩

end Multiple
